import Mathlib

/-!
Verification of the client-address resolution logic of the
`rocket-client-addr` crate.

The embedding models the three source files:

* `src/client_addr.rs` — the current `ClientAddr` guard: a hand-rolled
  local-address classifier `is_local_ip`, and `from_request`, which walks
  the `x-forwarded-for` chain backwards.
* `src/client_real_addr.rs` — the `ClientRealAddr` guard, which prefers the
  framework-validated real IP and otherwise parses the first
  `x-forwarded-for` token.
* `src/lib.rs` — the legacy `ClientAddr` guard built from the
  `impl_request_guard!` macro, whose classifier delegates to the Rust
  standard library's address predicates.

Rust strings are modelled as `List Char`; `str::split(',')`,
`str::rsplit(',')` and `str::trim` are given explicit executable models.
`str::parse::<IpAddr>` is standard-library code outside this repository,
so the resolver definitions take the parser as a function argument
`parse : List Char → Option IpAddr`; witnesses instantiate it with a
concrete fixture that agrees with the Rust parser on the strings used.
-/

/-- An IP address value: four IPv4 octets or eight 16-bit IPv6 segments,
mirroring `std::net::IpAddr` as a tagged value
(`Ipv4Addr::octets` / `Ipv6Addr::segments`). -/
inductive IpAddr where
  | v4 (a b c d : Nat)
  | v6 (s0 s1 s2 s3 s4 s5 s6 s7 : Nat)
deriving DecidableEq

namespace RustStr

/-- Model of Rust `str::split(',')`: split into comma-separated tokens,
left to right.  An empty string yields the single token `""`, and a
trailing comma yields a trailing empty token, as in Rust. -/
def splitComma (s : List Char) : List (List Char) :=
  match s with
  | [] => [[]]
  | c :: rest =>
    let r := splitComma rest
    if c = ',' then [] :: r
    else
      match r with
      | [] => [[c]]
      | t :: ts => (c :: t) :: ts

/-- Model of Rust `str::trim`: remove whitespace from both ends. -/
def trim (s : List Char) : List Char :=
  ((s.dropWhile Char.isWhitespace).reverse.dropWhile Char.isWhitespace).reverse

theorem splitComma_ne_nil (s : List Char) : splitComma s ≠ [] := by
  match s with
  | [] => simp [splitComma]
  | c :: rest =>
    rw [splitComma]
    have ih := splitComma_ne_nil rest
    cases h : splitComma rest with
    | nil => exact absurd h ih
    | cons t ts =>
      by_cases hc : c = ','
      · simp [hc]
      · simp [hc]

end RustStr

namespace ClientAddr

/-- The classifier `is_local_ip` from `src/client_addr.rs` lines 16–74.
The IPv4 arm mirrors the ordered Rust `match` on the four octets; the
IPv6 arm mirrors the multicast test on the first segment followed by the
nested `match` on the eight segments. -/
def is_local_ip : IpAddr → Bool
  | .v4 a b c d =>
    if a = 10 then true
    else if a = 172 ∧ 16 ≤ b ∧ b ≤ 31 then true
    else if a = 192 ∧ b = 168 then true
    else if a = 127 then true
    else if a = 169 ∧ b = 254 then true
    else if a = 255 ∧ b = 255 ∧ c = 255 ∧ d = 255 then true
    else if a = 192 ∧ b = 0 ∧ c = 2 then true
    else if a = 198 ∧ b = 51 ∧ c = 100 then true
    else if a = 203 ∧ b = 0 ∧ c = 113 then true
    else if a = 0 ∧ b = 0 ∧ c = 0 ∧ d = 0 then true
    else false
  | .v6 s0 s1 s2 s3 s4 s5 s6 s7 =>
    if s0 &&& 0xFF00 = 0xFF00 then
      decide (s0 &&& 0x000F ≠ 14)
    else if s0 = 0 ∧ s1 = 0 ∧ s2 = 0 ∧ s3 = 0 ∧ s4 = 0 ∧ s5 = 0 ∧ s6 = 0 ∧ s7 = 1 then true
    else if s0 = 0 ∧ s1 = 0 ∧ s2 = 0 ∧ s3 = 0 ∧ s4 = 0 ∧ s5 = 0 ∧ s6 = 0 ∧ s7 = 0 then true
    else if s0 &&& 0xFFC0 = 0xFE80 then true
    else if s0 &&& 0xFFC0 = 0xFEC0 then true
    else if s0 &&& 0xFE00 = 0xFC00 then true
    else decide (s0 = 0x2001 ∧ s1 = 0x0DB8)

/-- The chain-walking loop of `from_request`, `src/client_addr.rs` lines
100–110: for each token in order, trim and parse it; on parse failure stop
and return the accumulator `last_ip`; on success record the address and
stop with it as soon as it is not local. -/
def walkGo (parse : List Char → Option IpAddr) :
    List (List Char) → Option IpAddr → Option IpAddr
  | [], last_ip => last_ip
  | tok :: rest, _last_ip =>
    match parse (RustStr.trim tok) with
    | none => _last_ip
    | some ip =>
      if !is_local_ip ip then some ip
      else walkGo parse rest (some ip)

/-- Lines 98–110 of `src/client_addr.rs`: `rsplit(',')` (split, then walk
from the last token toward the first) starting from `last_ip = None`. -/
def walkChain (parse : List Char → Option IpAddr) (headerVal : List Char) :
    Option IpAddr :=
  walkGo parse (RustStr.splitComma headerVal).reverse none

/-- Lines 89–120 of `src/client_addr.rs`, reached when the early return on
a non-local peer did not fire: if the `x-forwarded-for` header is absent,
return `real_ip()` if some, else the saved `remote_ip`; if present, return
the walk result if some, else `real_ip()` if some, else `remote_ip`. -/
def resolveTail (parse : List Char → Option IpAddr)
    (remote_ip : Option IpAddr) (forwardedFor : Option (List Char))
    (realIp : Option IpAddr) : Option IpAddr :=
  match forwardedFor with
  | none =>
    match realIp with
    | some real_ip => some real_ip
    | none => remote_ip
  | some forwarded_for_ip =>
    match walkChain parse forwarded_for_ip with
    | some ip => some ip
    | none =>
      match realIp with
      | some real_ip => some real_ip
      | none => remote_ip

/-- `from_request` from `src/client_addr.rs` lines 76–121.  `remote` is
`request.remote()` (the peer address), `forwardedFor` the first
`x-forwarded-for` header value, `realIp` the value of
`request.real_ip()`.  A present, non-local peer is returned immediately
(lines 80–82); otherwise the peer is kept as `remote_ip` and resolution
continues with the header walk and fallbacks. -/
def from_request (parse : List Char → Option IpAddr)
    (remote : Option IpAddr) (forwardedFor : Option (List Char))
    (realIp : Option IpAddr) : Option IpAddr :=
  match remote with
  | some ip =>
    if !is_local_ip ip then some ip
    else resolveTail parse (some ip) forwardedFor realIp
  | none => resolveTail parse none forwardedFor realIp

end ClientAddr

namespace ClientRealAddr

/-- `from_request` from `src/client_real_addr.rs` lines 16–38: prefer
`request.real_ip()`; otherwise take the first `x-forwarded-for` header,
trim-parse only its first comma-separated token, and on a missing header
or a parse failure fall back to the peer address. -/
def from_request (parse : List Char → Option IpAddr)
    (remote : Option IpAddr) (forwardedFor : Option (List Char))
    (realIp : Option IpAddr) : Option IpAddr :=
  match realIp with
  | some ip => some ip
  | none =>
    match forwardedFor with
    | none => remote
    | some forwarded_for_ip =>
      match (RustStr.splitComma forwarded_for_ip).head? with
      | none => remote
      | some tok =>
        match parse (RustStr.trim tok) with
        | some ip => some ip
        | none => remote

end ClientRealAddr

namespace LegacyLib

/-- Model of Rust std `Ipv4Addr::is_private`. -/
def v4_is_private (a b : Nat) : Bool :=
  decide (a = 10 ∨ (a = 172 ∧ 16 ≤ b ∧ b ≤ 31) ∨ (a = 192 ∧ b = 168))

/-- Model of Rust std `Ipv4Addr::is_loopback`. -/
def v4_is_loopback (a : Nat) : Bool :=
  decide (a = 127)

/-- Model of Rust std `Ipv4Addr::is_link_local`. -/
def v4_is_link_local (a b : Nat) : Bool :=
  decide (a = 169 ∧ b = 254)

/-- Model of Rust std `Ipv4Addr::is_broadcast`. -/
def v4_is_broadcast (a b c d : Nat) : Bool :=
  decide (a = 255 ∧ b = 255 ∧ c = 255 ∧ d = 255)

/-- Model of Rust std `Ipv4Addr::is_documentation`. -/
def v4_is_documentation (a b c : Nat) : Bool :=
  decide ((a = 192 ∧ b = 0 ∧ c = 2) ∨ (a = 198 ∧ b = 51 ∧ c = 100) ∨
    (a = 203 ∧ b = 0 ∧ c = 113))

/-- Model of Rust std `Ipv4Addr::is_unspecified`. -/
def v4_is_unspecified (a b c d : Nat) : Bool :=
  decide (a = 0 ∧ b = 0 ∧ c = 0 ∧ d = 0)

/-- Model of Rust std `Ipv6Addr::is_multicast`. -/
def v6_is_multicast (s0 : Nat) : Bool :=
  decide (s0 &&& 0xFF00 = 0xFF00)

/-- Model of Rust std `Ipv6Addr::multicast_scope`: the scope nibble of a
multicast address when it is an assigned scope (`14` is `Global`),
`none` otherwise. -/
def v6_multicast_scope (s0 : Nat) : Option Nat :=
  if s0 &&& 0xFF00 = 0xFF00 then
    match s0 &&& 0x000F with
    | 1 => some 1
    | 2 => some 2
    | 3 => some 3
    | 4 => some 4
    | 5 => some 5
    | 8 => some 8
    | 14 => some 14
    | _ => none
  else none

/-- Model of Rust std `Ipv6Addr::is_loopback`. -/
def v6_is_loopback (s0 s1 s2 s3 s4 s5 s6 s7 : Nat) : Bool :=
  decide (s0 = 0 ∧ s1 = 0 ∧ s2 = 0 ∧ s3 = 0 ∧ s4 = 0 ∧ s5 = 0 ∧ s6 = 0 ∧ s7 = 1)

/-- Model of Rust std `Ipv6Addr::is_unspecified`. -/
def v6_is_unspecified (s0 s1 s2 s3 s4 s5 s6 s7 : Nat) : Bool :=
  decide (s0 = 0 ∧ s1 = 0 ∧ s2 = 0 ∧ s3 = 0 ∧ s4 = 0 ∧ s5 = 0 ∧ s6 = 0 ∧ s7 = 0)

/-- Model of Rust std `Ipv6Addr::is_unicast_link_local`. -/
def v6_is_unicast_link_local (s0 : Nat) : Bool :=
  decide (s0 &&& 0xFFC0 = 0xFE80)

/-- Model of Rust std `Ipv6Addr::is_unicast_site_local`. -/
def v6_is_unicast_site_local (s0 : Nat) : Bool :=
  decide (s0 &&& 0xFFC0 = 0xFEC0)

/-- Model of Rust std `Ipv6Addr::is_unique_local`. -/
def v6_is_unique_local (s0 : Nat) : Bool :=
  decide (s0 &&& 0xFE00 = 0xFC00)

/-- Model of Rust std `Ipv6Addr::is_documentation` (`2001:db8::/32`). -/
def v6_is_documentation (s0 s1 : Nat) : Bool :=
  decide (s0 = 0x2001 ∧ s1 = 0x0DB8)

/-- `is_local_ip` from `src/lib.rs` lines 26–41: the legacy classifier,
delegating to the standard-library predicates; an IPv6 multicast address
with `Global` scope is not local, any other assigned scope is local, and
the non-multicast disjunction mirrors the source's `||` chain. -/
def is_local_ip : IpAddr → Bool
  | .v4 a b c d =>
    v4_is_private a b || v4_is_loopback a || v4_is_link_local a b ||
      v4_is_broadcast a b c d || v4_is_documentation a b c ||
      v4_is_unspecified a b c d
  | .v6 s0 s1 s2 s3 s4 s5 s6 s7 =>
    match v6_multicast_scope s0 with
    | some 14 => false
    | none =>
      v6_is_multicast s0 || v6_is_loopback s0 s1 s2 s3 s4 s5 s6 s7 ||
        v6_is_unicast_link_local s0 || v6_is_unicast_site_local s0 ||
        v6_is_unique_local s0 || v6_is_unspecified s0 s1 s2 s3 s4 s5 s6 s7 ||
        v6_is_documentation s0 s1
    | some _ => true

/-- The body of the `impl_request_guard!` macro from `src/lib.rs` lines
43–100: the legacy `ClientAddr` resolution.  `realIpHeader` is the first
`x-real-ip` header value and `forwardedFor` the first `x-forwarded-for`
header value; each is parsed whole (no splitting, no trimming), and a
parse failure yields `none` with no fallback to the peer. -/
def from_request (parse : List Char → Option IpAddr)
    (remote : Option IpAddr) (realIpHeader : Option (List Char))
    (forwardedFor : Option (List Char)) : Option IpAddr :=
  let remoteAndOk : Option IpAddr × Bool :=
    match remote with
    | some ip => (some ip, !is_local_ip ip)
    | none => (none, false)
  let remote_ip := remoteAndOk.1
  let ok := remoteAndOk.2
  if ok then
    remote_ip
  else
    match realIpHeader with
    | some real_ip =>
      match parse real_ip with
      | some ip => some ip
      | none => none
    | none =>
      match forwardedFor with
      | some forwarded_for_ip =>
        match parse forwarded_for_ip with
        | some ip => some ip
        | none => none
      | none => remote_ip

end LegacyLib

/-- A concrete IP-address parser used by witnesses and counterexamples:
it agrees with Rust `str::parse::<IpAddr>` on each listed string and
rejects every other string. -/
def parseFixture (s : List Char) : Option IpAddr :=
  if s = "8.8.8.8".data then some (.v4 8 8 8 8)
  else if s = "1.1.1.1".data then some (.v4 1 1 1 1)
  else if s = "10.0.0.1".data then some (.v4 10 0 0 1)
  else if s = "192.168.1.1".data then some (.v4 192 168 1 1)
  else if s = "203.0.113.5".data then some (.v4 203 0 113 5)
  else none

example : ClientAddr.walkChain parseFixture "8.8.8.8, 10.0.0.1".data =
    some (.v4 8 8 8 8) := by decide

example : ClientAddr.walkChain parseFixture "203.0.113.5, 10.0.0.1, 192.168.1.1".data =
    some (.v4 203 0 113 5) := by decide

example : ClientAddr.walkChain parseFixture "not-an-ip, 8.8.8.8".data =
    some (.v4 8 8 8 8) := by decide

/-- Accumulator of the walk after a block of tokens that all trim-parse to
local addresses: the parse of the block's last token, or the incoming
accumulator when the block is empty. -/
theorem walkGo_skip_local (parse : List Char → Option IpAddr)
    (pre l2 : List (List Char)) :
    ∀ acc : Option IpAddr,
      (∀ s ∈ pre, ∃ a, parse (RustStr.trim s) = some a ∧
        ClientAddr.is_local_ip a = true) →
      ClientAddr.walkGo parse (pre ++ l2) acc =
        ClientAddr.walkGo parse l2
          (match pre.getLast? with
           | none => acc
           | some s => parse (RustStr.trim s)) := by
  induction pre with
  | nil => intro acc _; rfl
  | cons tok pre ih =>
    intro acc hpre
    obtain ⟨a, ha, hla⟩ := hpre tok (List.mem_cons_self _ _)
    have htail := fun s hs => hpre s (List.mem_cons_of_mem _ hs)
    have step : ClientAddr.walkGo parse ((tok :: pre) ++ l2) acc =
        ClientAddr.walkGo parse (pre ++ l2) (some a) := by
      simp [ClientAddr.walkGo, ha, hla]
    rw [step, ih (some a) htail]
    cases pre with
    | nil => simp [ha]
    | cons t pre2 =>
      rw [List.getLast?_cons_cons]
      cases h : (t :: pre2).getLast? with
      | none => exact absurd (List.getLast?_eq_none_iff.mp h) (by simp)
      | some s => rfl

/-- Claim C1, counterexample to the frozen statement: the peer `8.8.8.8`
is present and not local, the forwarded chain on header `1.1.1.1` yields
the non-local address `1.1.1.1`, yet the resolver returns the peer, not
the chain result (lines 80–82 of `src/client_addr.rs` return the
non-local peer before the header is consulted). -/
theorem claim1_cex :
    ClientAddr.is_local_ip (.v4 8 8 8 8) = false ∧
      ClientAddr.walkChain parseFixture "1.1.1.1".data = some (.v4 1 1 1 1) ∧
      ClientAddr.from_request parseFixture (some (.v4 8 8 8 8))
        (some "1.1.1.1".data) none = some (.v4 8 8 8 8) ∧
      IpAddr.v4 8 8 8 8 ≠ IpAddr.v4 1 1 1 1 := by decide

/-- Claim C1 as amended: for every request whose direct peer address is
present and not local, the resolver returns that peer address
immediately; the forwarded chain is consulted only when the peer is
absent or local. -/
theorem claim1_thm (parse : List Char → Option IpAddr) (ip : IpAddr)
    (hip : ClientAddr.is_local_ip ip = false)
    (forwardedFor : Option (List Char)) (realIp : Option IpAddr) :
    ClientAddr.from_request parse (some ip) forwardedFor realIp = some ip := by
  simp [ClientAddr.from_request, hip]

/-- Claim C1 witness: the amended statement at peer `8.8.8.8` with header
`1.1.1.1` and no platform real IP. -/
theorem claim1_witness :
    ClientAddr.is_local_ip (.v4 8 8 8 8) = false ∧
      ClientAddr.from_request parseFixture (some (.v4 8 8 8 8))
        (some "1.1.1.1".data) none = some (.v4 8 8 8 8) :=
  ⟨by decide,
    claim1_thm parseFixture (.v4 8 8 8 8) (by decide) (some "1.1.1.1".data) none⟩

/-- Claim C2: splitting the forwarding header on commas and iterating from
the last token toward the first, the first token that trim-parses to a
non-local address is returned immediately, provided every token walked
before it (closer to the end of the header) trim-parses to a local
address. -/
theorem claim2_thm (parse : List Char → Option IpAddr) (headerVal : List Char)
    (pre rest : List (List Char)) (tok : List Char) (ip : IpAddr)
    (hsplit : (RustStr.splitComma headerVal).reverse = pre ++ tok :: rest)
    (hpre : ∀ s ∈ pre, ∃ a, parse (RustStr.trim s) = some a ∧
      ClientAddr.is_local_ip a = true)
    (htok : parse (RustStr.trim tok) = some ip)
    (hip : ClientAddr.is_local_ip ip = false) :
    ClientAddr.walkChain parse headerVal = some ip := by
  unfold ClientAddr.walkChain
  rw [hsplit, walkGo_skip_local parse pre (tok :: rest) none hpre]
  simp [ClientAddr.walkGo, htok, hip]

/-- Claim C2 witness: header `"8.8.8.8, 10.0.0.1"` walked backward skips
the local `10.0.0.1` and returns `8.8.8.8`. -/
theorem claim2_witness :
    (RustStr.splitComma "8.8.8.8, 10.0.0.1".data).reverse =
        [" 10.0.0.1".data, "8.8.8.8".data] ∧
      ClientAddr.walkChain parseFixture "8.8.8.8, 10.0.0.1".data =
        some (.v4 8 8 8 8) :=
  ⟨by decide,
    claim2_thm parseFixture "8.8.8.8, 10.0.0.1".data [" 10.0.0.1".data] []
      "8.8.8.8".data (.v4 8 8 8 8) (by decide)
      (by
        intro s hs
        rw [List.mem_singleton] at hs
        subst hs
        exact ⟨.v4 10 0 0 1, by decide, by decide⟩)
      (by decide) (by decide)⟩

/-- Claim C3: (a) when the tokens from the end of the header up to a token
that fails to trim-parse all parse to local addresses, the walk stops at
the failure and returns the last address parsed before it (none when
none was parsed); (b) when every token trim-parses to a local address,
the walk returns the address of the first (leftmost) token of the
header rather than none. -/
theorem claim3_thm (parse : List Char → Option IpAddr) (headerVal : List Char) :
    (∀ pre tok rest,
      (RustStr.splitComma headerVal).reverse = pre ++ tok :: rest →
      (∀ s ∈ pre, ∃ a, parse (RustStr.trim s) = some a ∧
        ClientAddr.is_local_ip a = true) →
      parse (RustStr.trim tok) = none →
      ClientAddr.walkChain parse headerVal =
        (pre.getLast?).bind (fun s => parse (RustStr.trim s))) ∧
    (∀ tokFirst ip,
      ((RustStr.splitComma headerVal).reverse.getLast? = some tokFirst) →
      (∀ s ∈ (RustStr.splitComma headerVal).reverse, ∃ a,
        parse (RustStr.trim s) = some a ∧ ClientAddr.is_local_ip a = true) →
      parse (RustStr.trim tokFirst) = some ip →
      ClientAddr.walkChain parse headerVal = some ip) := by
  constructor
  · intro pre tok rest hsplit hpre htok
    unfold ClientAddr.walkChain
    rw [hsplit, walkGo_skip_local parse pre (tok :: rest) none hpre]
    cases h : pre.getLast? with
    | none => simp [ClientAddr.walkGo, htok]
    | some s => simp [ClientAddr.walkGo, htok]
  · intro tokFirst ip hlast hall hparse
    unfold ClientAddr.walkChain
    have h := walkGo_skip_local parse
      ((RustStr.splitComma headerVal).reverse) [] none hall
    rw [List.append_nil] at h
    rw [h, hlast]
    simpa [ClientAddr.walkGo] using hparse

/-- Claim C3 witness: part (b) on header
`"203.0.113.5, 10.0.0.1, 192.168.1.1"`, whose tokens all parse to local
addresses; the walk exhausts the chain and returns the leftmost address
`203.0.113.5` rather than none. -/
theorem claim3_witness :
    ClientAddr.walkChain parseFixture
        "203.0.113.5, 10.0.0.1, 192.168.1.1".data = some (.v4 203 0 113 5) :=
  (claim3_thm parseFixture "203.0.113.5, 10.0.0.1, 192.168.1.1".data).2
    "203.0.113.5".data (.v4 203 0 113 5) (by decide)
    (by
      have e : (RustStr.splitComma
          "203.0.113.5, 10.0.0.1, 192.168.1.1".data).reverse =
          [" 192.168.1.1".data, " 10.0.0.1".data, "203.0.113.5".data] := by
        decide
      rw [e]
      intro s hs
      simp only [List.mem_cons, List.not_mem_nil, or_false] at hs
      obtain rfl | rfl | rfl := hs
      · exact ⟨.v4 192 168 1 1, by decide, by decide⟩
      · exact ⟨.v4 10 0 0 1, by decide, by decide⟩
      · exact ⟨.v4 203 0 113 5, by decide, by decide⟩)
    (by decide)

set_option maxHeartbeats 1600000 in
/-- Claim C4: the IPv4 classifier returns local exactly on
`10.0.0.0/8`, `172.16.0.0/12`, `192.168.0.0/16`, `127.0.0.0/8`,
`169.254.0.0/16`, `192.0.2.0/24`, `198.51.100.0/24`, `203.0.113.0/24`,
`0.0.0.0` and `255.255.255.255`, and not local on every other IPv4
address. -/
theorem claim4_thm (a b c d : Nat) :
    ClientAddr.is_local_ip (.v4 a b c d) = true ↔
      (a = 10 ∨ (a = 172 ∧ 16 ≤ b ∧ b ≤ 31) ∨ (a = 192 ∧ b = 168) ∨
        a = 127 ∨ (a = 169 ∧ b = 254) ∨
        (a = 192 ∧ b = 0 ∧ c = 2) ∨ (a = 198 ∧ b = 51 ∧ c = 100) ∨
        (a = 203 ∧ b = 0 ∧ c = 113) ∨
        (a = 0 ∧ b = 0 ∧ c = 0 ∧ d = 0) ∨
        (a = 255 ∧ b = 255 ∧ c = 255 ∧ d = 255)) := by
  simp only [ClientAddr.is_local_ip]
  split_ifs with h1 h2 h3 h4 h5 h6 h7 h8 h9 h10
  · exact iff_of_true rfl (Or.inl h1)
  · exact iff_of_true rfl (Or.inr (Or.inl h2))
  · exact iff_of_true rfl (Or.inr (Or.inr (Or.inl h3)))
  · exact iff_of_true rfl (Or.inr (Or.inr (Or.inr (Or.inl h4))))
  · exact iff_of_true rfl (Or.inr (Or.inr (Or.inr (Or.inr (Or.inl h5)))))
  · exact iff_of_true rfl (Or.inr (Or.inr (Or.inr (Or.inr (Or.inr (Or.inr
      (Or.inr (Or.inr (Or.inr h6)))))))))
  · exact iff_of_true rfl (Or.inr (Or.inr (Or.inr (Or.inr (Or.inr
      (Or.inl h7))))))
  · exact iff_of_true rfl (Or.inr (Or.inr (Or.inr (Or.inr (Or.inr (Or.inr
      (Or.inl h8)))))))
  · exact iff_of_true rfl (Or.inr (Or.inr (Or.inr (Or.inr (Or.inr (Or.inr
      (Or.inr (Or.inl h9))))))))
  · exact iff_of_true rfl (Or.inr (Or.inr (Or.inr (Or.inr (Or.inr (Or.inr
      (Or.inr (Or.inr (Or.inl h10)))))))))
  · refine iff_of_false (by simp) ?_
    rintro (h | h | h | h | h | h | h | h | h | h)
    · exact h1 h
    · exact h2 h
    · exact h3 h
    · exact h4 h
    · exact h5 h
    · exact h7 h
    · exact h8 h
    · exact h9 h
    · exact h10 h
    · exact h6 h

/-- Claim C5: for an IPv6 address whose first segment has top byte `0xFF`
(the code's multicast test `segments[0] & 0xFF00 == 0xFF00`), the
classifier returns local exactly when the low 4 bits of the first
segment differ from `14`; global-scope multicast is the only multicast
classified as not local. -/
theorem claim5_thm (s0 s1 s2 s3 s4 s5 s6 s7 : Nat)
    (hmc : s0 &&& 0xFF00 = 0xFF00) :
    ClientAddr.is_local_ip (.v6 s0 s1 s2 s3 s4 s5 s6 s7) = true ↔
      s0 &&& 0x000F ≠ 14 := by
  simp [ClientAddr.is_local_ip, hmc]

/-- Claim C5 witness: `ff02::1` (all-nodes link-local multicast, scope
nibble `2`) is multicast and is classified local. -/
theorem claim5_witness :
    (0xFF02 &&& 0xFF00 = 0xFF00) ∧
      (ClientAddr.is_local_ip (.v6 0xFF02 0 0 0 0 0 0 1) = true ↔
        0xFF02 &&& 0x000F ≠ 14) :=
  ⟨by decide, claim5_thm 0xFF02 0 0 0 0 0 0 1 (by decide)⟩

set_option maxHeartbeats 1600000 in
/-- Claim C6: for a non-multicast IPv6 address, the classifier returns
local exactly when the address is `::1` or `::`, or the first segment
masked with `0xFFC0` is `0xFE80` or `0xFEC0`, or the first segment
masked with `0xFE00` is `0xFC00`, or the first two segments are
`0x2001` and `0x0DB8`; otherwise not local. -/
theorem claim6_thm (s0 s1 s2 s3 s4 s5 s6 s7 : Nat)
    (hmc : s0 &&& 0xFF00 ≠ 0xFF00) :
    ClientAddr.is_local_ip (.v6 s0 s1 s2 s3 s4 s5 s6 s7) = true ↔
      ((s0 = 0 ∧ s1 = 0 ∧ s2 = 0 ∧ s3 = 0 ∧ s4 = 0 ∧ s5 = 0 ∧ s6 = 0 ∧
          s7 = 1) ∨
        (s0 = 0 ∧ s1 = 0 ∧ s2 = 0 ∧ s3 = 0 ∧ s4 = 0 ∧ s5 = 0 ∧ s6 = 0 ∧
          s7 = 0) ∨
        s0 &&& 0xFFC0 = 0xFE80 ∨ s0 &&& 0xFFC0 = 0xFEC0 ∨
        s0 &&& 0xFE00 = 0xFC00 ∨ (s0 = 0x2001 ∧ s1 = 0x0DB8)) := by
  simp only [ClientAddr.is_local_ip]
  rw [if_neg hmc]
  split_ifs with h1 h2 h3 h4 h5
  · exact iff_of_true rfl (Or.inl h1)
  · exact iff_of_true rfl (Or.inr (Or.inl h2))
  · exact iff_of_true rfl (Or.inr (Or.inr (Or.inl h3)))
  · exact iff_of_true rfl (Or.inr (Or.inr (Or.inr (Or.inl h4))))
  · exact iff_of_true rfl (Or.inr (Or.inr (Or.inr (Or.inr (Or.inl h5)))))
  · constructor
    · intro h
      exact Or.inr (Or.inr (Or.inr (Or.inr (Or.inr (of_decide_eq_true h)))))
    · rintro (h | h | h | h | h | h)
      · exact absurd h h1
      · exact absurd h h2
      · exact absurd h h3
      · exact absurd h h4
      · exact absurd h h5
      · exact decide_eq_true h

/-- Claim C6 witness: the documentation address `2001:db8::` is not
multicast and is classified local. -/
theorem claim6_witness :
    (0x2001 &&& 0xFF00 ≠ 0xFF00) ∧
      (ClientAddr.is_local_ip (.v6 0x2001 0x0DB8 0 0 0 0 0 0) = true ↔
        ((0x2001 = 0 ∧ 0x0DB8 = 0 ∧ 0 = 0 ∧ 0 = 0 ∧ 0 = 0 ∧ 0 = 0 ∧ 0 = 0 ∧
            (0 : Nat) = 1) ∨
          (0x2001 = 0 ∧ 0x0DB8 = 0 ∧ 0 = 0 ∧ 0 = 0 ∧ 0 = 0 ∧ 0 = 0 ∧ 0 = 0 ∧
            (0 : Nat) = 0) ∨
          0x2001 &&& 0xFFC0 = 0xFE80 ∨ 0x2001 &&& 0xFFC0 = 0xFEC0 ∨
          0x2001 &&& 0xFE00 = 0xFC00 ∨
          ((0x2001 : Nat) = 0x2001 ∧ (0x0DB8 : Nat) = 0x0DB8))) :=
  ⟨by decide, claim6_thm 0x2001 0x0DB8 0 0 0 0 0 0 (by decide)⟩

/-- Claim C7, counterexample to the frozen statement: with a present
non-local peer `8.8.8.8`, no forwarding header, and platform real IP
`1.1.1.1` present, resolution returns the peer, not the real-IP hint —
the early return on a non-local peer fires before the real-IP fallback
is consulted. -/
theorem claim7_cex :
    ClientAddr.is_local_ip (.v4 8 8 8 8) = false ∧
      ClientAddr.from_request parseFixture (some (.v4 8 8 8 8)) none
        (some (.v4 1 1 1 1)) = some (.v4 8 8 8 8) ∧
      some (IpAddr.v4 8 8 8 8) ≠ some (IpAddr.v4 1 1 1 1) := by decide

/-- Claim C7 as amended: for every request whose peer address is absent or
local, when the forwarding header is absent or its walk yields no
address, resolution returns the platform real IP when present, else the
peer address when present (even when that peer is local), and otherwise
absent. -/
theorem claim7_thm (parse : List Char → Option IpAddr)
    (remote : Option IpAddr) (forwardedFor : Option (List Char))
    (realIp : Option IpAddr)
    (hremote : ∀ ip, remote = some ip → ClientAddr.is_local_ip ip = true)
    (hfwd : forwardedFor = none ∨
      ∃ hv, forwardedFor = some hv ∧ ClientAddr.walkChain parse hv = none) :
    ClientAddr.from_request parse remote forwardedFor realIp =
      match realIp with
      | some real_ip => some real_ip
      | none => remote := by
  have tail : ∀ rip : Option IpAddr,
      ClientAddr.resolveTail parse rip forwardedFor realIp =
        match realIp with
        | some real_ip => some real_ip
        | none => rip := by
    intro rip
    rcases hfwd with hnone | ⟨hv, hsome, hwalk⟩
    · rw [hnone]
      rfl
    · rw [hsome]
      show (match ClientAddr.walkChain parse hv with
        | some ip => some ip
        | none =>
          match realIp with
          | some real_ip => some real_ip
          | none => rip) = _
      rw [hwalk]
  cases hr : remote with
  | none => exact tail none
  | some ip =>
    have hl := hremote ip hr
    have hstep : ClientAddr.from_request parse (some ip) forwardedFor realIp =
        ClientAddr.resolveTail parse (some ip) forwardedFor realIp := by
      simp [ClientAddr.from_request, hl]
    rw [hstep]
    exact tail (some ip)

/-- Claim C7 witness: no header, no real IP, and the local documentation
peer `198.51.100.7`; resolution falls back to that peer. -/
theorem claim7_witness :
    ClientAddr.from_request parseFixture (some (.v4 198 51 100 7)) none none =
      some (.v4 198 51 100 7) := by
  have h := claim7_thm parseFixture (some (.v4 198 51 100 7)) none none
    (by intro ip hip; injection hip with h2; rw [← h2]; decide)
    (Or.inl rfl)
  exact h

/-- Claim C8: the resolver is a deterministic function of the
`(peer, header, realIp)` triple — two resolutions of equal inputs yield
equal results. -/
theorem claim8_thm (parse : List Char → Option IpAddr)
    (remote1 remote2 : Option IpAddr) (fwd1 fwd2 : Option (List Char))
    (real1 real2 : Option IpAddr)
    (h1 : remote1 = remote2) (h2 : fwd1 = fwd2) (h3 : real1 = real2) :
    ClientAddr.from_request parse remote1 fwd1 real1 =
      ClientAddr.from_request parse remote2 fwd2 real2 := by
  rw [h1, h2, h3]

/-- Claim C8 witness: two resolutions of the same concrete triple agree. -/
theorem claim8_witness :
    ClientAddr.from_request parseFixture (some (.v4 10 0 0 1))
        (some "8.8.8.8, 10.0.0.1".data) none =
      ClientAddr.from_request parseFixture (some (.v4 10 0 0 1))
        (some "8.8.8.8, 10.0.0.1".data) none :=
  claim8_thm parseFixture _ _ _ _ _ _ rfl rfl rfl

/-- Claim C9: the ClientRealAddr guard returns the platform real IP
whenever present, regardless of headers or peer; otherwise it
trim-parses only the first (leftmost) comma-separated token of the
first `x-forwarded-for` header, with no locality classification; and on
a missing header or a parse failure it falls back to the peer. -/
theorem claim9_thm (parse : List Char → Option IpAddr)
    (remote : Option IpAddr) :
    (∀ forwardedFor realIpVal,
      ClientRealAddr.from_request parse remote forwardedFor (some realIpVal) =
        some realIpVal) ∧
    (ClientRealAddr.from_request parse remote none none = remote) ∧
    (∀ headerVal tok,
      (RustStr.splitComma headerVal).head? = some tok →
      ClientRealAddr.from_request parse remote (some headerVal) none =
        match parse (RustStr.trim tok) with
        | some ip => some ip
        | none => remote) := by
  refine ⟨fun _ _ => rfl, rfl, ?_⟩
  intro headerVal tok h
  show (match (RustStr.splitComma headerVal).head? with
    | none => remote
    | some tok =>
      match parse (RustStr.trim tok) with
      | some ip => some ip
      | none => remote) = _
  rw [h]

/-- Claim C9 witness: with no real IP and header
`"8.8.8.8, 192.168.1.1"`, the guard returns the leftmost token
`8.8.8.8` — the opposite end of the chain from the ClientAddr walk. -/
theorem claim9_witness :
    ClientRealAddr.from_request parseFixture (some (.v4 10 0 0 1))
        (some "8.8.8.8, 192.168.1.1".data) none = some (.v4 8 8 8 8) := by
  have h := (claim9_thm parseFixture (some (.v4 10 0 0 1))).2.2
    "8.8.8.8, 192.168.1.1".data "8.8.8.8".data (by decide)
  rw [h]
  decide

/-- Claim C10: in the legacy guard, for a local peer, an `x-real-ip`
header whose whole value fails to parse — or, when `x-real-ip` is
absent, an `x-forwarded-for` header whose whole value fails to parse —
makes resolution return none rather than fall back to the peer; the
header value is handed to the parser whole, with no comma splitting. -/
theorem claim10_thm (parse : List Char → Option IpAddr) (ip : IpAddr)
    (hlocal : LegacyLib.is_local_ip ip = true)
    (realIpHeader forwardedFor : Option (List Char))
    (hbad : (∃ s, realIpHeader = some s ∧ parse s = none) ∨
      (realIpHeader = none ∧ ∃ s, forwardedFor = some s ∧ parse s = none)) :
    LegacyLib.from_request parse (some ip) realIpHeader forwardedFor =
      none := by
  rcases hbad with ⟨s, hs, hp⟩ | ⟨hnone, s, hs, hp⟩
  · rw [hs]
    simp [LegacyLib.from_request, hlocal, hp]
  · rw [hnone, hs]
    simp [LegacyLib.from_request, hlocal, hp]

/-- Claim C10 witness: local peer `127.0.0.1` and an `x-real-ip` header
that is a comma-separated list (hence not a single parseable address):
the legacy guard yields none instead of the peer. -/
theorem claim10_witness :
    LegacyLib.is_local_ip (.v4 127 0 0 1) = true ∧
      LegacyLib.from_request parseFixture (some (.v4 127 0 0 1))
        (some "8.8.8.8, 10.0.0.1".data) none = none :=
  ⟨by decide, claim10_thm parseFixture (.v4 127 0 0 1) (by decide)
    (some "8.8.8.8, 10.0.0.1".data) none
    (Or.inl ⟨"8.8.8.8, 10.0.0.1".data, rfl, by decide⟩)⟩
